import Mathlib

/-!
Shallow embedding of the ETL-Pipeline repository (FastAPI + MSSQL + SQLite):
row hashing (`app/services/hashing.py`), key remapping and processing
(`app/services/etl.py`), the SQLite cache upsert (`app/db/sqlite_manager.py`),
the offset store (`app/db/mssql.py`), the Excel exporter
(`app/services/exporter.py`), the task-log ledger (`app/services/etl.py` /
`app/api/v1/endpoints.py`) and the two orchestrator runs
(`run_etl_pipeline`, `run_full_etl_sync`).

Modelling conventions:
- Python dict rows become association lists `List (String × Val)` in
  insertion order; dict-key uniqueness appears as `Nodup` hypotheses.
- Database/source values are carried in their `str()` image (`Val.s`);
  the integer `hash_value` is carried as `Val.i`.
- File I/O (offset file, tasks log, export file) becomes explicit state
  (`RunState`); wall-clock timestamps are not modelled.
- The unbounded `while True` loop of `run_full_etl_sync` is given explicit
  fuel; every loop exit of the source (`break` on query error, fetch error
  or empty chunk) is reported in `LoopExit`.
- Hard extractor failures are `Option`-valued: `fetch ... = none` models
  `fetch_data_as_dict` returning `None` after a caught database error.
-/

/-- A Python value as it appears in a row dict: either a source value in its
string form, or the integer `hash_value`. -/
inductive Val where
  | s (v : String)
  | i (n : Nat)
deriving DecidableEq, Repr

/-- A Python dict row: association list in insertion order. -/
abbrev Row := List (String × Val)

/-- `str(v)` for a row value. -/
def strOfVal : Val → String
  | .s v => v
  | .i n => toString n

/-- The reflected CRC-32 polynomial used by `zlib.crc32`. -/
def CRC32_POLY : Nat := 0xEDB88320

/-- One bit step of the reflected CRC-32 computation. -/
def crcRound (c : Nat) : Nat :=
  if c % 2 = 1 then Nat.xor (c / 2) CRC32_POLY else c / 2

/-- Fold one byte into a CRC-32 accumulator. -/
def crcByte (crc b : Nat) : Nat :=
  crcRound^[8] (Nat.xor crc (b % 256))

/-- `zlib.crc32` over a byte list: init `0xFFFFFFFF`, reflected polynomial
`0xEDB88320`, final xor `0xFFFFFFFF`. -/
def crc32 (bytes : List Nat) : Nat :=
  Nat.xor (bytes.foldl crcByte 0xFFFFFFFF) 0xFFFFFFFF

/-- UTF-8 encoding of one Unicode code point (as byte values). -/
def utf8Char (c : Nat) : List Nat :=
  if c < 0x80 then [c]
  else if c < 0x800 then [0xC0 + c / 64, 0x80 + c % 64]
  else if c < 0x10000 then
    [0xE0 + c / 4096, 0x80 + (c / 64) % 64, 0x80 + c % 64]
  else
    [0xF0 + c / 262144, 0x80 + (c / 4096) % 64, 0x80 + (c / 64) % 64,
     0x80 + c % 64]

/-- `s.encode("utf-8")` as a byte list. -/
def utf8Encode (s : String) : List Nat :=
  (s.data.map (fun ch => utf8Char ch.toNat)).flatten

/-- `"".join(str(row[key]) for key in sorted(row.keys()))` — the canonical
string hashed by `calculate_row_hash` (`app/services/hashing.py`). -/
def rowCanonicalString (row : Row) : String :=
  String.join ((List.insertionSort (· ≤ ·) (row.map Prod.fst)).map
    (fun k => strOfVal ((row.lookup k).getD (.s ""))))

/-- The argument passed to `calculate_row_hash`: a dict, or any non-dict
value (the defensive `not isinstance(row, dict)` case). -/
inductive HashInput where
  | dict (row : Row)
  | nondict
deriving Repr

/-- `calculate_row_hash` (`app/services/hashing.py`): CRC-32 of the UTF-8
encoding of the sorted-key concatenation of stringified values; `0` for a
non-dict input. (The `except` branch that also returns `0` is unreachable
here: the only row accesses are by keys of the row itself.) -/
def calculate_row_hash : HashInput → Nat
  | .nondict => 0
  | .dict row => crc32 (utf8Encode (rowCanonicalString row))

/-- `KEY_MAPPING` (`app/services/etl.py`): source column name → canonical
cache field name. -/
def KEY_MAPPING : List (String × String) :=
  [("Reg_no", "reg_no"), ("RegDate", "reg_date"),
   ("Report_Release_Date", "report_release_date"), ("Released", "released"),
   ("Test_End_Date", "test_end_date"), ("Invoicing_Type", "invoicing_type"),
   ("Test_Report_Stage", "test_report_stage"), ("InvoiceDate", "invoice_date"),
   ("Buyer", "buyer"), ("InvoiceNo", "invoice_no"),
   ("modifieddt", "modifieddt")]

/-- `KEY_MAPPING.get(k, k)`: remap a known source column, keep an unknown
column name unchanged. -/
def keyMap (k : String) : String := (KEY_MAPPING.lookup k).getD k

/-- Python dict assignment `d[k] = v`: update in place (keeping the key's
insertion position) when the key exists, append otherwise. -/
def dictInsert (d : Row) (k : String) (v : Val) : Row :=
  if (d.lookup k).isSome then
    d.map (fun kv => if kv.1 = k then (k, v) else kv)
  else d ++ [(k, v)]

/-- One step of the dict comprehension
`{KEY_MAPPING.get(k, k): v for k, v in row.items()}`. -/
def remapStep (acc : Row) (kv : String × Val) : Row :=
  dictInsert acc (keyMap kv.1) kv.2

/-- The remapping dict comprehension of `_process_and_hash_data`
(`app/services/etl.py`), built in iteration order. -/
def remapRow (row : Row) : Row := row.foldl remapStep []

/-- `_process_and_hash_data` (`app/services/etl.py`): remap each row's keys,
then store `calculate_row_hash` of the remapped row (computed before the
`hash_value` key is added) under `hash_value`. -/
def process_and_hash_data (data : List Row) : List Row :=
  data.map (fun row =>
    let remapped := remapRow row
    dictInsert remapped "hash_value" (.i (calculate_row_hash (.dict remapped))))

/-- One row of the SQLite `cache_data` table (`app/db/sqlite_manager.py`):
the eleven named TEXT columns plus the integer `hash_value`; `reg_no` is the
primary key. -/
structure CacheRecord where
  reg_no : String
  reg_date : String
  report_release_date : String
  released : String
  test_end_date : String
  invoicing_type : String
  test_report_stage : String
  invoice_date : String
  buyer : String
  invoice_no : String
  modifieddt : String
  hash_value : Nat
deriving DecidableEq, Repr

/-- The `cache_data` table as a list of records (row order immaterial to the
queries the code issues). -/
abbrev Cache := List CacheRecord

/-- `row[k]` for a TEXT column. In Python a missing key raises `KeyError`
inside the upsert's `try` block; ETL-produced rows always carry the accessed
keys, and absence is modelled by the empty string. -/
def strField (row : Row) (k : String) : String :=
  match row.lookup k with
  | some v => strOfVal v
  | none => ""

/-- `row["hash_value"]` as an integer (`0` when absent or non-integer). -/
def intField (row : Row) (k : String) : Nat :=
  match row.lookup k with
  | some (.i n) => n
  | _ => 0

/-- The projection of a processed row dict onto the columns named in the
`INSERT OR REPLACE` statement of `upsert_rows`: keys outside the column list
are dropped by the SQL statement itself. -/
def rowToRecord (row : Row) : CacheRecord :=
  { reg_no := strField row "reg_no"
    reg_date := strField row "reg_date"
    report_release_date := strField row "report_release_date"
    released := strField row "released"
    test_end_date := strField row "test_end_date"
    invoicing_type := strField row "invoicing_type"
    test_report_stage := strField row "test_report_stage"
    invoice_date := strField row "invoice_date"
    buyer := strField row "buyer"
    invoice_no := strField row "invoice_no"
    modifieddt := strField row "modifieddt"
    hash_value := intField row "hash_value" }

/-- `SELECT hash_value FROM cache_data WHERE reg_no = ?` — the whole stored
row, of which only `hash_value` is read. -/
def lookupCache (c : Cache) (k : String) : Option CacheRecord :=
  c.find? (fun r => r.reg_no == k)

/-- `INSERT OR REPLACE INTO cache_data ...`: delete any row with the same
primary key, insert the new row. -/
def writeRecord (c : Cache) (r : CacheRecord) : Cache :=
  (c.filter (fun x => !(x.reg_no == r.reg_no))) ++ [r]

/-- The per-row body of the `upsert_rows` loop: write and count the row when
no cached row with its key exists or the stored `hash_value` differs, skip
otherwise. -/
def upsertRecord (c : Cache) (r : CacheRecord) : Cache × Nat :=
  match lookupCache c r.reg_no with
  | none => (writeRecord c r, 1)
  | some old =>
    if old.hash_value = r.hash_value then (c, 0) else (writeRecord c r, 1)

/-- `upsert_rows` (`app/db/sqlite_manager.py`): fold the per-row upsert over
the batch, summing the per-row counts; the empty batch returns `0` at once.
(The `except` path that returns a partial count after a database error is an
environmental failure, not modelled.) -/
def upsert_rows (cache : Cache) : List Row → Cache × Nat
  | [] => (cache, 0)
  | row :: rest =>
    let step := upsertRecord cache (rowToRecord row)
    let further := upsert_rows step.1 rest
    (further.1, step.2 + further.2)

/-- One task record written to `tasks_log.json`. Wall-clock fields
(`start_time`, `end_time`) are not modelled; the remaining fields are
optional because each code path writes a different subset. `exported_file`
is doubly optional: the outer layer is field presence, the inner the
JSON-null value written when the export returned `None`. -/
structure TaskResult where
  status : String
  message : Option String := none
  rows_received : Option Nat := none
  rows_updated_in_cache : Option Nat := none
  last_offset_processed : Option String := none
  total_rows_received : Option Nat := none
  total_rows_updated_in_cache : Option Nat := none
  exported_file : Option (Option String) := none
deriving DecidableEq, Repr

/-- The on-disk state of `tasks_log.json`: missing file, unparseable JSON, or
a parsed document whose `tasks` member is a dict (`some`) or missing /
not-a-dict (`none`). -/
inductive LedgerDoc where
  | absent
  | corrupt
  | parsed (tasks : Option (List (String × TaskResult)))
deriving DecidableEq, Repr

/-- Python dict assignment for the ledger's `tasks` dict. -/
def taskInsert (d : List (String × TaskResult)) (k : String) (v : TaskResult) :
    List (String × TaskResult) :=
  if (d.lookup k).isSome then
    d.map (fun kv => if kv.1 = k then (k, v) else kv)
  else d ++ [(k, v)]

/-- `_update_task_in_log` (`app/services/etl.py`): read the log, fall back to
an empty document when the file is missing or corrupted (`JSONDecodeError`)
or its `tasks` member is missing or not a dict, set `tasks[task_id]`, write
back. -/
def update_task_in_log (doc : LedgerDoc) (task_id : String) (result : TaskResult) :
    LedgerDoc :=
  let tasks := match doc with
    | .parsed (some ts) => ts
    | _ => []
  .parsed (some (taskInsert tasks task_id result))

/-- The HTTP outcome of `get_latest_etl_status` (`app/api/v1/endpoints.py`):
a 200 payload, a 404, or a 500. -/
inductive StatusResponse where
  | ok (latest_task_id : String) (info : TaskResult)
  | notFound (detail : String)
  | serverError (detail : String)
deriving DecidableEq, Repr

/-- `get_latest_etl_status` (`app/api/v1/endpoints.py`): 404 when the log
file is missing or its `tasks` dict is missing/empty, 500 when the JSON is
unparseable, otherwise the record of the last-inserted task id. -/
def get_latest_etl_status (doc : LedgerDoc) : StatusResponse :=
  match doc with
  | .absent => .notFound "No tasks have been run yet."
  | .corrupt => .serverError "Failed to read status file."
  | .parsed none => .notFound "Task log is empty."
  | .parsed (some []) => .notFound "Task log is empty."
  | .parsed (some (t :: ts)) =>
    let last := (t :: ts).getLast (by simp)
    .ok last.1 last.2

/-- Read one task's record out of a ledger document. -/
def getTask (doc : LedgerDoc) (task_id : String) : Option TaskResult :=
  match doc with
  | .parsed (some ts) => ts.lookup task_id
  | _ => none

/-- The mutable file-system state a run touches: the offset file
(`database/offset.json`), the SQLite cache, the tasks log, and whether the
export snapshot file exists. -/
structure RunState where
  offset : Option String
  cache : Cache
  ledger : LedgerDoc
  snapshot : Bool
deriving Repr

/-- The run's environment: the result of loading+formatting the SQL
template (`_load_sql_query` + `str.format`), the chunk fetcher
(`mssql.fetch_data_as_dict`, `none` = caught database error), the configured
chunk size, and whether the Excel write succeeds. -/
structure Env where
  queryTemplate : Except String String
  fetch : String → Nat → Option (List Row)
  chunk_size : Nat
  writeOk : Bool

/-- `mssql.save_last_id`: overwrite the offset file with the given id. -/
def saveOffset (st : RunState) (v : String) : RunState :=
  { st with offset := some v }

/-- Write one task record through `_update_task_in_log`. -/
def logTask (st : RunState) (task_id : String) (r : TaskResult) : RunState :=
  { st with ledger := update_task_in_log st.ledger task_id r }

/-- `ID_COLUMN` (`app/services/etl.py`). -/
def ID_COLUMN : String := "reg_no"

/-- `RESET_REG_NO` (`app/services/etl.py`): the sentinel start cursor. -/
def RESET_REG_NO : String := "MUM/T(A)/13/000367"

/-- `processed_data[-1][ID_COLUMN]` as a string. -/
def lastRegNo (rows : List Row) : String :=
  strField ((rows.getLast?).getD []) ID_COLUMN

/-- `run_etl_pipeline` (`app/services/etl.py`): the single-chunk run. Log
`running`; on a query-template failure or a fetch failure log `error` with a
message and stop; on an empty chunk reset the offset to the sentinel and log
`complete`; otherwise process, upsert, save the last processed id as the new
offset and log `success`. -/
def run_etl_pipeline (env : Env) (task_id : String) (st0 : RunState) : RunState :=
  let st := logTask st0 task_id { status := "running" }
  let last_id := st.offset.getD ""
  match env.queryTemplate with
  | .error e =>
    logTask st task_id
      { status := "error",
        message := some ("Failed to load/format SQL query: " ++ e) }
  | .ok _ =>
    match env.fetch last_id env.chunk_size with
    | none =>
      logTask st task_id
        { status := "error", message := some "Failed to fetch data from MSSQL" }
    | some [] =>
      let st2 := saveOffset st RESET_REG_NO
      logTask st2 task_id
        { status := "complete", message := some "No new data. Offset reset.",
          rows_received := some 0 }
    | some rows =>
      let processed := process_and_hash_data rows
      let up := upsert_rows st.cache processed
      let new_last_id := lastRegNo processed
      let st2 := saveOffset { st with cache := up.1 } new_last_id
      logTask st2 task_id
        { status := "success", rows_received := some rows.length,
          rows_updated_in_cache := some up.2,
          last_offset_processed := some new_last_id }

/-- Why the `while True` loop of `run_full_etl_sync` stopped. -/
inductive LoopExit where
  | emptyData
  | queryError
  | fetchError
  | fuelOut
deriving DecidableEq, Repr

/-- The state, counters and exit cause at the end of the full-sync loop. -/
structure LoopRes where
  st : RunState
  received : Nat
  updated : Nat
  exit : LoopExit
deriving Repr

/-- The `while True` loop of `run_full_etl_sync` (`app/services/etl.py`),
with explicit fuel. Each iteration loads the offset, loads+formats the query
(`break` on failure), fetches a chunk (`break` on hard failure or on an
empty chunk), otherwise processes, upserts, accumulates the counters and
saves the chunk's last id as the new offset. -/
def syncLoop (env : Env) : Nat → RunState → Nat → Nat → LoopRes
  | 0, st, recv, upd => ⟨st, recv, upd, .fuelOut⟩
  | fuel + 1, st, recv, upd =>
    let last_id := st.offset.getD ""
    match env.queryTemplate with
    | .error _ => ⟨st, recv, upd, .queryError⟩
    | .ok _ =>
      match env.fetch last_id env.chunk_size with
      | none => ⟨st, recv, upd, .fetchError⟩
      | some [] => ⟨st, recv, upd, .emptyData⟩
      | some rows =>
        let processed := process_and_hash_data rows
        let up := upsert_rows st.cache processed
        let new_last_id := lastRegNo processed
        let st2 := saveOffset { st with cache := up.1 } new_last_id
        syncLoop env fuel st2 (recv + rows.length) (upd + up.2)

/-- The fixed export path `exports/etl_master_export.xlsx`
(`app/services/exporter.py`). -/
def EXPORT_PATH : String := "exports/etl_master_export.xlsx"

/-- `export_data_to_excel` (`app/services/exporter.py`): on an empty cache
delete any existing snapshot and return `none`; otherwise write the snapshot
and return its path, or return `none` when the write raises (the whole body
is inside `try`/`except`, so no failure escapes). Returns the result and the
new snapshot-file existence. -/
def export_data_to_excel (writeOk : Bool) (cache : Cache) (snapshot : Bool) :
    Option String × Bool :=
  if cache = [] then (none, false)
  else if writeOk then (some EXPORT_PATH, true)
  else (none, snapshot)

/-- The pre-loop phase of `run_full_etl_sync`: save the sentinel offset
`RESET_REG_NO`, then log `running`. -/
def fullSyncInit (task_id : String) (st : RunState) : RunState :=
  let st1 := saveOffset st RESET_REG_NO
  logTask st1 task_id
    { status := "running",
      message := some "Full sync started, offset has been reset." }

/-- The post-init phase of `run_full_etl_sync`: run the loop, export the
cache, and log the final `complete` record with the accumulated counters and
the export result. -/
def fullSyncRest (fuel : Nat) (env : Env) (task_id : String) (st1 : RunState) :
    RunState :=
  let res := syncLoop env fuel st1 0 0
  let ex := export_data_to_excel env.writeOk res.st.cache res.st.snapshot
  let st3 := { res.st with snapshot := ex.2 }
  logTask st3 task_id
    { status := "complete", message := some "Full sync finished.",
      total_rows_received := some res.received,
      total_rows_updated_in_cache := some res.updated,
      exported_file := some ex.1 }

/-- `run_full_etl_sync` (`app/services/etl.py`): the full-sync run is the
pre-loop reset phase followed by the loop/export/final-log phase. -/
def run_full_etl_sync (fuel : Nat) (env : Env) (task_id : String)
    (st : RunState) : RunState :=
  fullSyncRest fuel env task_id (fullSyncInit task_id st)

/-! ## Helper lemmas -/

set_option maxRecDepth 4000 in
/-- The CRC-32 embedding agrees with the standard check value
`crc32("123456789") = 0xCBF43926` of CRC-32/ISO-HDLC (the algorithm of
`zlib.crc32`). -/
theorem crc32_check_value : crc32 (utf8Encode "123456789") = 0xCBF43926 := by
  decide

theorem lookup_cons_ne {β : Type} (a1 : String) (a2 : β) (t : List (String × β))
    (k : String) (h : (k == a1) = false) :
    ((a1, a2) :: t).lookup k = t.lookup k := by
  simp [List.lookup_cons, h]

theorem lookup_map_set {β : Type} (d : List (String × β)) (k : String) (v : β)
    (h : (d.lookup k).isSome) :
    (d.map (fun kv => if kv.1 = k then (k, v) else kv)).lookup k = some v := by
  induction d with
  | nil => simp at h
  | cons a t ih =>
    obtain ⟨a1, a2⟩ := a
    by_cases hak : a1 = k
    · subst hak
      simp
    · have hbeq : (k == a1) = false := by
        simp only [beq_eq_false_iff_ne]
        exact fun hkk => hak hkk.symm
      have ht : (t.lookup k).isSome := by
        rw [lookup_cons_ne a1 a2 t k hbeq] at h
        exact h
      have hfa : (if (a1, a2).1 = k then (k, v) else (a1, a2)) = (a1, a2) := by
        simp [hak]
      rw [List.map_cons, hfa, lookup_cons_ne a1 a2 _ k hbeq]
      exact ih ht

theorem lookup_append_self {β : Type} (d : List (String × β)) (k : String) (v : β)
    (h : d.lookup k = none) : (d ++ [(k, v)]).lookup k = some v := by
  rw [List.lookup_append, h]
  simp

theorem lookup_set_self {β : Type} (d : List (String × β)) (k : String) (v : β) :
    (if (d.lookup k).isSome then
        d.map (fun kv => if kv.1 = k then (k, v) else kv)
      else d ++ [(k, v)]).lookup k = some v := by
  by_cases h : (d.lookup k).isSome
  · rw [if_pos h]
    exact lookup_map_set d k v h
  · rw [if_neg h]
    exact lookup_append_self d k v (Option.not_isSome_iff_eq_none.mp h)

theorem lookup_dictInsert (d : Row) (k : String) (v : Val) :
    (dictInsert d k v).lookup k = some v :=
  lookup_set_self d k v

theorem lookup_taskInsert (d : List (String × TaskResult)) (k : String)
    (v : TaskResult) : (taskInsert d k v).lookup k = some v :=
  lookup_set_self d k v

theorem getTask_update (doc : LedgerDoc) (tid : String) (r : TaskResult) :
    getTask (update_task_in_log doc tid r) tid = some r :=
  lookup_taskInsert _ _ _

theorem getTask_logTask (st : RunState) (tid : String) (r : TaskResult) :
    getTask (logTask st tid r).ledger tid = some r :=
  getTask_update _ _ _

theorem logTask_offset (st : RunState) (tid : String) (r : TaskResult) :
    (logTask st tid r).offset = st.offset := rfl

theorem lookup_perm_of_nodupKeys {β : Type} :
    ∀ {r1 r2 : List (String × β)}, r1.Perm r2 → (r1.map Prod.fst).Nodup →
      ∀ k, r1.lookup k = r2.lookup k := by
  intro r1 r2 h
  induction h with
  | nil => intro _ _; rfl
  | cons x h ih =>
    intro nd k
    obtain ⟨x1, x2⟩ := x
    cases hk : k == x1 with
    | true => rw [List.lookup_cons, List.lookup_cons, hk]
    | false =>
      rw [lookup_cons_ne x1 x2 _ k hk, lookup_cons_ne x1 x2 _ k hk]
      simp only [List.map_cons, List.nodup_cons] at nd
      exact ih nd.2 k
  | swap x y l =>
    intro nd k
    obtain ⟨x1, x2⟩ := x
    obtain ⟨y1, y2⟩ := y
    have hxy : y1 ≠ x1 := by
      simp only [List.map_cons, List.nodup_cons] at nd
      exact fun he => nd.1 (by rw [he]; exact List.mem_cons_self _ _)
    cases h1 : k == y1 with
    | true =>
      cases h2 : k == x1 with
      | true =>
        exact absurd ((beq_iff_eq.mp h1).symm.trans (beq_iff_eq.mp h2)) hxy
      | false => simp [List.lookup_cons, h1, h2]
    | false =>
      cases h2 : k == x1 with
      | true => simp [List.lookup_cons, h1, h2]
      | false => simp [List.lookup_cons, h1, h2]
  | trans h1 h2 ih1 ih2 =>
    intro nd k
    rw [ih1 nd k, ih2 ((h1.map Prod.fst).nodup nd) k]

theorem keys_sort_eq {r1 r2 : Row} (h : r1.Perm r2) :
    List.insertionSort (· ≤ ·) (r1.map Prod.fst) =
      List.insertionSort (· ≤ ·) (r2.map Prod.fst) := by
  exact List.eq_of_perm_of_sorted
    (((List.perm_insertionSort _ _).trans (h.map Prod.fst)).trans
      (List.perm_insertionSort _ _).symm)
    (List.sorted_insertionSort _ _) (List.sorted_insertionSort _ _)

theorem rowCanonicalString_perm {r1 r2 : Row} (h : r1.Perm r2)
    (nd : (r1.map Prod.fst).Nodup) :
    rowCanonicalString r1 = rowCanonicalString r2 := by
  unfold rowCanonicalString
  rw [keys_sort_eq h]
  congr 1
  apply List.map_congr_left
  intro k _
  rw [lookup_perm_of_nodupKeys h nd k]

/-! ## Claims -/

/-- Claim C4: the row hash is order-independent and total — two field-value
maps with identical key/value pairs in different insertion orders hash
identically, and a non-dict input yields `0` instead of failing. -/
theorem calculate_row_hash_order_independent :
    (∀ r1 r2 : Row, r1.Perm r2 → (r1.map Prod.fst).Nodup →
       calculate_row_hash (.dict r1) = calculate_row_hash (.dict r2)) ∧
    calculate_row_hash .nondict = 0 := by
  refine ⟨fun r1 r2 h nd => ?_, rfl⟩
  simp only [calculate_row_hash]
  rw [rowCanonicalString_perm h nd]

/-- Witness for C4 at a concrete two-field row and its transposition. -/
theorem calculate_row_hash_order_independent_witness :
    calculate_row_hash (.dict [("a", .s "1"), ("b", .s "2")]) =
      calculate_row_hash (.dict [("b", .s "2"), ("a", .s "1")]) :=
  calculate_row_hash_order_independent.1 _ _
    (List.Perm.swap ("b", Val.s "2") ("a", Val.s "1") []) (by decide)

/-- Claim C2: within a batch, each record is written (insert-or-replace) and
counted exactly when no cached record with its primary key exists or the
stored `hash_value` differs, and skipped when the stored hash is identical;
the empty batch returns `0` and leaves the cache unchanged. -/
theorem upsert_rows_per_record :
    (∀ c : Cache, upsert_rows c [] = (c, 0)) ∧
    (∀ (c : Cache) (row : Row) (rest : List Row),
       upsert_rows c (row :: rest) =
         ((upsert_rows (upsertRecord c (rowToRecord row)).1 rest).1,
          (upsertRecord c (rowToRecord row)).2 +
            (upsert_rows (upsertRecord c (rowToRecord row)).1 rest).2)) ∧
    (∀ (c : Cache) (r : CacheRecord), lookupCache c r.reg_no = none →
       upsertRecord c r = (writeRecord c r, 1)) ∧
    (∀ (c : Cache) (r old : CacheRecord), lookupCache c r.reg_no = some old →
       old.hash_value ≠ r.hash_value → upsertRecord c r = (writeRecord c r, 1)) ∧
    (∀ (c : Cache) (r old : CacheRecord), lookupCache c r.reg_no = some old →
       old.hash_value = r.hash_value → upsertRecord c r = (c, 0)) := by
  refine ⟨fun c => rfl, fun c row rest => rfl, ?_, ?_, ?_⟩
  · intro c r h
    unfold upsertRecord
    rw [h]
  · intro c r old h hne
    unfold upsertRecord
    rw [h]
    simp [hne]
  · intro c r old h he
    unfold upsertRecord
    rw [h]
    simp [he]

/-- Witness for C2: upserting one record into the empty cache writes it. -/
theorem upsert_rows_per_record_witness :
    upsertRecord [] ⟨"A", "", "", "", "", "", "", "", "", "", "", 7⟩ =
      (writeRecord [] ⟨"A", "", "", "", "", "", "", "", "", "", "", 7⟩, 1) :=
  upsert_rows_per_record.2.2.1 [] _ rfl

theorem lookupCache_writeRecord (c : Cache) (r : CacheRecord) :
    lookupCache (writeRecord c r) r.reg_no = some r := by
  unfold lookupCache writeRecord
  rw [List.find?_append]
  have h1 : (c.filter (fun x => !(x.reg_no == r.reg_no))).find?
      (fun x => x.reg_no == r.reg_no) = none := by
    rw [List.find?_eq_none]
    intro x hx
    have hmem := (List.mem_filter.mp hx).2
    simp only [Bool.not_eq_eq_eq_not, Bool.not_true] at hmem
    simp [hmem]
  rw [h1]
  simp

theorem upsertRecord_idem (c : Cache) (r : CacheRecord) :
    upsertRecord (upsertRecord c r).1 r = ((upsertRecord c r).1, 0) := by
  cases h : lookupCache c r.reg_no with
  | none =>
    have h1 : upsertRecord c r = (writeRecord c r, 1) := by
      unfold upsertRecord
      rw [h]
    rw [h1]
    unfold upsertRecord
    rw [lookupCache_writeRecord]
    simp
  | some old =>
    by_cases he : old.hash_value = r.hash_value
    · have h1 : upsertRecord c r = (c, 0) := by
        unfold upsertRecord
        rw [h]
        simp [he]
      rw [h1]
      unfold upsertRecord
      rw [h]
      simp [he]
    · have h1 : upsertRecord c r = (writeRecord c r, 1) := by
        unfold upsertRecord
        rw [h]
        simp [he]
      rw [h1]
      unfold upsertRecord
      rw [lookupCache_writeRecord]
      simp

/-- Claim C3: the cache upsert is idempotent — after a first call has
processed a record, a second call with the same unchanged record returns an
updated-count of `0` and leaves the cache state unchanged. -/
theorem upsert_rows_idempotent (c : Cache) (row : Row) :
    upsert_rows (upsert_rows c [row]).1 [row] = ((upsert_rows c [row]).1, 0) := by
  have e1 : ∀ c2 : Cache, upsert_rows c2 [row] =
      ((upsertRecord c2 (rowToRecord row)).1,
       (upsertRecord c2 (rowToRecord row)).2 + 0) := fun c2 => rfl
  rw [e1, e1]
  have h2 := upsertRecord_idem c (rowToRecord row)
  rw [h2]

theorem lookup_eq_none_of_not_mem_keys {β : Type} (d : List (String × β))
    (k : String) (h : k ∉ d.map Prod.fst) : d.lookup k = none := by
  rw [List.lookup_eq_none_iff]
  intro p hp
  have hm : p.1 ∈ d.map Prod.fst := List.mem_map_of_mem _ hp
  simp only [bne_iff_ne]
  exact fun he => h (he ▸ hm)

theorem dictInsert_append_of_not_mem (d : Row) (k : String) (v : Val)
    (h : k ∉ d.map Prod.fst) : dictInsert d k v = d ++ [(k, v)] := by
  unfold dictInsert
  rw [lookup_eq_none_of_not_mem_keys d k h]
  rfl

theorem foldl_remapStep_append :
    ∀ (row : List (String × Val)) (acc : Row),
      (acc.map Prod.fst ++ row.map (fun kv => keyMap kv.1)).Nodup →
      row.foldl remapStep acc = acc ++ row.map (fun kv => (keyMap kv.1, kv.2)) := by
  intro row
  induction row with
  | nil =>
    intro acc _
    simp
  | cons kv t ih =>
    intro acc nd
    have nd2 : (acc.map Prod.fst ++
        (keyMap kv.1 :: t.map (fun kv => keyMap kv.1))).Nodup := by
      simpa using nd
    have hnot : keyMap kv.1 ∉ acc.map Prod.fst := by
      intro hmem
      exact (List.disjoint_of_nodup_append nd2) hmem (by simp)
    have hstep : remapStep acc kv = acc ++ [(keyMap kv.1, kv.2)] := by
      unfold remapStep
      exact dictInsert_append_of_not_mem _ _ _ hnot
    rw [List.foldl_cons, hstep, ih (acc ++ [(keyMap kv.1, kv.2)])
      (by simpa using nd2)]
    simp

theorem mapped_keys (row : Row) :
    (row.map (fun kv => (keyMap kv.1, kv.2))).map Prod.fst =
      row.map (fun kv => keyMap kv.1) := by
  simp [List.map_map, Function.comp]

/-- Counterexample to C5 as stated: a source column absent from
`KEY_MAPPING` ("foo") is carried into the normalized record rather than
dropped, so the output does not contain only canonical field names. -/
theorem normalize_keeps_unmapped_cex :
    process_and_hash_data [[("foo", Val.s "bar")]] =
      [[("foo", Val.s "bar"), ("hash_value", Val.i 1996459178)]] ∧
    "foo" ∉ KEY_MAPPING.map Prod.snd ∧ "foo" ≠ "hash_value" := by
  refine ⟨by decide, by decide, by decide⟩

/-- Claim C5 (amended): normalization remaps the known source columns to
canonical field names, and a source column not in the mapping is kept
unchanged under its original name (never dropped, never an error); the
normalized record's keys are exactly the key-mapped source keys plus
`hash_value`. -/
theorem normalize_remaps_and_keeps_unmapped :
    (∀ row : Row, (row.map (fun kv => keyMap kv.1)).Nodup →
       remapRow row = row.map (fun kv => (keyMap kv.1, kv.2))) ∧
    (∀ k, KEY_MAPPING.lookup k = none → keyMap k = k) ∧
    (∀ k c, KEY_MAPPING.lookup k = some c → keyMap k = c) ∧
    (∀ row : Row, (row.map (fun kv => keyMap kv.1)).Nodup →
       "hash_value" ∉ row.map (fun kv => keyMap kv.1) →
       process_and_hash_data [row] =
         [row.map (fun kv => (keyMap kv.1, kv.2)) ++
            [("hash_value", Val.i (calculate_row_hash
              (.dict (row.map (fun kv => (keyMap kv.1, kv.2))))))]]) := by
  have hremap : ∀ row : Row, (row.map (fun kv => keyMap kv.1)).Nodup →
      remapRow row = row.map (fun kv => (keyMap kv.1, kv.2)) := by
    intro row nd
    unfold remapRow
    exact foldl_remapStep_append row [] (by simpa using nd)
  refine ⟨hremap, ?_, ?_, ?_⟩
  · intro k h
    unfold keyMap
    rw [h]
    rfl
  · intro k c h
    unfold keyMap
    rw [h]
    rfl
  · intro row nd hh
    show [dictInsert (remapRow row) "hash_value"
        (.i (calculate_row_hash (.dict (remapRow row))))] = _
    rw [hremap row nd]
    rw [dictInsert_append_of_not_mem _ _ _ (by
      rw [mapped_keys]
      exact hh)]

/-- Witness for C5 at a concrete single-column row with an unmapped key. -/
theorem normalize_remaps_and_keeps_unmapped_witness :
    process_and_hash_data [[("foo", Val.s "bar")]] =
      [([("foo", Val.s "bar")] : Row).map (fun kv => (keyMap kv.1, kv.2)) ++
        [("hash_value", Val.i (calculate_row_hash
          (.dict (([("foo", Val.s "bar")] : Row).map
            (fun kv => (keyMap kv.1, kv.2))))))]] :=
  normalize_remaps_and_keeps_unmapped.2.2.2 [("foo", Val.s "bar")]
    (by decide) (by decide)

/-- Counterexample to C6 as stated: two normalized rows that agree on every
non-key field (both have none) but differ in the primary key `reg_no` get
different hashes — the stored hash depends on the key, not only on non-key
fields. -/
theorem hash_depends_on_key_cex :
    (([("reg_no", Val.s "A")] : Row).filter (fun kv => !(kv.1 == "reg_no")) =
       ([("reg_no", Val.s "B")] : Row).filter (fun kv => !(kv.1 == "reg_no"))) ∧
    calculate_row_hash (.dict [("reg_no", Val.s "A")]) ≠
      calculate_row_hash (.dict [("reg_no", Val.s "B")]) := by
  refine ⟨rfl, by decide⟩

/-- Claim C6 (amended): the stored `hash_value` is a deterministic function
of all normalized fields including the primary key — it is computed from the
full remapped row (before the hash key is added), and any two normalized
rows containing the same field/value pairs (in any order) hash equally. -/
theorem hash_function_of_all_fields :
    (∀ row : Row, ((process_and_hash_data [row]).headI).lookup "hash_value" =
       some (Val.i (calculate_row_hash (.dict (remapRow row))))) ∧
    (∀ n1 n2 : Row, n1.Perm n2 → (n1.map Prod.fst).Nodup →
       calculate_row_hash (.dict n1) = calculate_row_hash (.dict n2)) := by
  constructor
  · intro row
    show (dictInsert (remapRow row) "hash_value"
        (.i (calculate_row_hash (.dict (remapRow row))))).lookup "hash_value" = _
    exact lookup_dictInsert _ _ _
  · intro n1 n2 h nd
    simp only [calculate_row_hash]
    rw [rowCanonicalString_perm h nd]

/-- Witness for C6 at a concrete normalized row and its transposition. -/
theorem hash_function_of_all_fields_witness :
    calculate_row_hash (.dict [("reg_no", Val.s "A"), ("buyer", Val.s "X")]) =
      calculate_row_hash (.dict [("buyer", Val.s "X"), ("reg_no", Val.s "A")]) :=
  hash_function_of_all_fields.2 _ _
    (List.Perm.swap ("buyer", Val.s "X") ("reg_no", Val.s "A") []) (by decide)

/-- The record that `run_full_etl_sync` writes as the task's final status. -/
theorem getTask_run_full (fuel : Nat) (env : Env) (tid : String)
    (st : RunState) :
    getTask (run_full_etl_sync fuel env tid st).ledger tid =
      some { status := "complete", message := some "Full sync finished.",
             total_rows_received :=
               some (syncLoop env fuel (fullSyncInit tid st) 0 0).received,
             total_rows_updated_in_cache :=
               some (syncLoop env fuel (fullSyncInit tid st) 0 0).updated,
             exported_file := some (export_data_to_excel env.writeOk
               (syncLoop env fuel (fullSyncInit tid st) 0 0).st.cache
               (syncLoop env fuel (fullSyncInit tid st) 0 0).st.snapshot).1 } :=
  getTask_logTask _ _ _

/-- Counterexample to C1 as stated: with a working query template but a hard
fetch failure on every chunk, the full sync's final Task Ledger record has
status `complete` (message "Full sync finished."), not an error status. -/
theorem full_sync_hard_error_logs_complete_cex :
    getTask (run_full_etl_sync 3
        ⟨Except.ok "q", fun _ _ => none, 1000, true⟩ "t1"
        ⟨none, [], .absent, false⟩).ledger "t1" =
      some { status := "complete", message := some "Full sync finished.",
             total_rows_received := some 0, total_rows_updated_in_cache := some 0,
             exported_file := some none } ∧
    ("complete" : String) ≠ "error" ∧ ("complete" : String) ≠ "Failed" := by
  refine ⟨by decide, by decide, by decide⟩

/-- Claim C1 (amended): on an extractor hard error (query-template failure
or fetch failure) the single-chunk run records an `error` status with a
message in the Task Ledger; the full-sync run stops fetching but its final
ledger record always has status `complete`. -/
theorem run_error_recording :
    (∀ (env : Env) (tid : String) (st : RunState) (e : String),
       env.queryTemplate = .error e →
       getTask (run_etl_pipeline env tid st).ledger tid =
         some { status := "error",
                message := some ("Failed to load/format SQL query: " ++ e) }) ∧
    (∀ (env : Env) (tid : String) (st : RunState) (q : String),
       env.queryTemplate = .ok q →
       env.fetch (st.offset.getD "") env.chunk_size = none →
       getTask (run_etl_pipeline env tid st).ledger tid =
         some { status := "error",
                message := some "Failed to fetch data from MSSQL" }) ∧
    (∀ (fuel : Nat) (env : Env) (tid : String) (st : RunState),
       (getTask (run_full_etl_sync fuel env tid st).ledger tid).map
         TaskResult.status = some "complete") := by
  refine ⟨?_, ?_, ?_⟩
  · intro env tid st e h
    simp only [run_etl_pipeline]
    rw [h]
    dsimp only
    exact getTask_logTask _ _ _
  · intro env tid st q hq hf
    simp only [run_etl_pipeline, logTask_offset]
    rw [hq, hf]
    dsimp only
    exact getTask_logTask _ _ _
  · intro fuel env tid st
    rw [getTask_run_full]
    rfl

/-- Witness for C1 at a concrete environment whose fetch always fails. -/
theorem run_error_recording_witness :
    getTask (run_etl_pipeline ⟨Except.ok "q", fun _ _ => none, 2, true⟩ "t"
        ⟨none, [], .absent, false⟩).ledger "t" =
      some { status := "error",
             message := some "Failed to fetch data from MSSQL" } :=
  run_error_recording.2.1 ⟨Except.ok "q", fun _ _ => none, 2, true⟩ "t"
    ⟨none, [], .absent, false⟩ "q" rfl rfl

/-- Claim C7: a hard fetch error ends the run without persisting a new
cursor value for that chunk — the single-chunk run leaves the offset
untouched, the failing full-sync loop iteration returns its input state
unchanged with a `fetchError` exit, and the code after the full-sync loop
never writes the offset. -/
theorem fetch_error_preserves_cursor :
    (∀ (env : Env) (tid : String) (st : RunState) (q : String),
       env.queryTemplate = .ok q →
       env.fetch (st.offset.getD "") env.chunk_size = none →
       (run_etl_pipeline env tid st).offset = st.offset) ∧
    (∀ (env : Env) (fuel recv upd : Nat) (st : RunState) (q : String),
       env.queryTemplate = .ok q →
       env.fetch (st.offset.getD "") env.chunk_size = none →
       syncLoop env (fuel + 1) st recv upd = ⟨st, recv, upd, .fetchError⟩) ∧
    (∀ (fuel : Nat) (env : Env) (tid : String) (st : RunState),
       (run_full_etl_sync fuel env tid st).offset =
         (syncLoop env fuel (fullSyncInit tid st) 0 0).st.offset) := by
  refine ⟨?_, ?_, ?_⟩
  · intro env tid st q hq hf
    simp only [run_etl_pipeline, logTask_offset]
    rw [hq, hf]
    rfl
  · intro env fuel recv upd st q hq hf
    simp only [syncLoop]
    rw [hq, hf]
  · intro fuel env tid st
    rfl

/-- Witness for C7 at a concrete environment whose fetch always fails: the
offset stays at its pre-run value. -/
theorem fetch_error_preserves_cursor_witness :
    (run_etl_pipeline ⟨Except.ok "q", fun _ _ => none, 2, true⟩ "t"
        ⟨some "X", [], .absent, false⟩).offset =
      (⟨some "X", [], .absent, false⟩ : RunState).offset :=
  fetch_error_preserves_cursor.1 ⟨Except.ok "q", fun _ _ => none, 2, true⟩ "t"
    ⟨some "X", [], .absent, false⟩ "q" rfl rfl

/-- Claim C8: the exporter is best-effort — with an empty cache it deletes
any existing snapshot and returns `none` instead of writing an empty file;
on a write failure it returns `none`; in both cases the full sync still logs
a terminal `complete` status with `exported_file` set to the JSON null. -/
theorem export_best_effort :
    (∀ (w snap : Bool), export_data_to_excel w [] snap = (none, false)) ∧
    (∀ (c : Cache) (snap : Bool), c ≠ [] →
       export_data_to_excel false c snap = (none, snap)) ∧
    (∀ (fuel : Nat) (env : Env) (tid : String) (st : RunState),
       env.writeOk = false ∨
         (syncLoop env fuel (fullSyncInit tid st) 0 0).st.cache = [] →
       (getTask (run_full_etl_sync fuel env tid st).ledger tid).map
         (fun r => (r.status, r.exported_file)) =
           some ("complete", some none)) := by
  refine ⟨?_, ?_, ?_⟩
  · intro w snap
    rfl
  · intro c snap hc
    unfold export_data_to_excel
    rw [if_neg hc]
    rfl
  · intro fuel env tid st hdisj
    rw [getTask_run_full]
    have hex : (export_data_to_excel env.writeOk
        (syncLoop env fuel (fullSyncInit tid st) 0 0).st.cache
        (syncLoop env fuel (fullSyncInit tid st) 0 0).st.snapshot).1 = none := by
      rcases hdisj with hw | hc
      · unfold export_data_to_excel
        rw [hw]
        by_cases hc2 : (syncLoop env fuel (fullSyncInit tid st) 0 0).st.cache = []
        · rw [if_pos hc2]
        · rw [if_neg hc2]
          rfl
      · unfold export_data_to_excel
        rw [if_pos hc]
    rw [hex]
    rfl

/-- Witness for C8 at a concrete run whose Excel write fails: the final
record still reads `complete` with a null `exported_file`. -/
theorem export_best_effort_witness :
    (getTask (run_full_etl_sync 1
        ⟨Except.ok "q", fun _ _ => some [], 5, false⟩ "t"
        ⟨none, [], .absent, false⟩).ledger "t").map
      (fun r => (r.status, r.exported_file)) = some ("complete", some none) :=
  export_best_effort.2.2 1 ⟨Except.ok "q", fun _ _ => some [], 5, false⟩ "t"
    ⟨none, [], .absent, false⟩ (Or.inl rfl)

/-- Counterexample to C9 as stated: reading the latest status from a corrupt
ledger is answered with an HTTP 500 server error — the corruption is
propagated to the caller, not recovered by treating the ledger as empty. -/
theorem corrupt_ledger_read_propagates_cex :
    get_latest_etl_status LedgerDoc.corrupt =
      StatusResponse.serverError "Failed to read status file." := rfl

/-- Claim C9 (amended): writing a task's status recovers from a missing,
corrupt, or malformed ledger document by starting from an empty task dict
and never fails; reading the latest status, however, maps a corrupt ledger
to an HTTP 500 error response. -/
theorem ledger_corruption_recovery :
    (∀ (tid : String) (r : TaskResult),
       update_task_in_log LedgerDoc.corrupt tid r = .parsed (some [(tid, r)])) ∧
    (∀ (tid : String) (r : TaskResult),
       update_task_in_log LedgerDoc.absent tid r = .parsed (some [(tid, r)])) ∧
    (∀ (tid : String) (r : TaskResult),
       update_task_in_log (LedgerDoc.parsed none) tid r =
         .parsed (some [(tid, r)])) ∧
    get_latest_etl_status LedgerDoc.corrupt =
      StatusResponse.serverError "Failed to read status file." := by
  exact ⟨fun tid r => rfl, fun tid r => rfl, fun tid r => rfl, rfl⟩

/-- Claim C10: every full sync starts by persisting the sentinel cursor
`MUM/T(A)/13/000367`, unconditionally overwriting any saved cursor, before
any chunk is fetched or committed — the run factors through an init phase
that sets the offset to the sentinel and leaves the cache untouched. -/
theorem full_sync_resets_cursor_first :
    RESET_REG_NO = "MUM/T(A)/13/000367" ∧
    (∀ (tid : String) (st : RunState),
       (fullSyncInit tid st).offset = some RESET_REG_NO) ∧
    (∀ (tid : String) (st : RunState), (fullSyncInit tid st).cache = st.cache) ∧
    (∀ (fuel : Nat) (env : Env) (tid : String) (st : RunState),
       run_full_etl_sync fuel env tid st =
         fullSyncRest fuel env tid (fullSyncInit tid st)) :=
  ⟨rfl, fun _ _ => rfl, fun _ _ => rfl, fun _ _ _ _ => rfl⟩
